import Mathlib

/-!
Verification of the cfde_ap action provider (src/cfde_ap/api.py and
src/cfde_ap/utils.py) against its natural-language specification.

The DynamoDB table is modelled as a list of action records; DynamoDB
numbers (Python Decimal) are modelled by a value that remembers whether
it is still the backend Decimal wrapper or a plain Python int.
-/

namespace CfdeAp

/-- Error taxonomy of the service (spec section 7). The error module itself
is not under src/; only the constructor chosen at each raise site in
src/cfde_ap matters here. `Uncaught` stands for a plain Python exception
(for example ValueError) escaping a handler that only catches ApiError. -/
inductive ApErr where
  | InvalidRequest (msg : String)
  | NotFound (msg : String)
  | NotAuthorized (msg : String)
  | InvalidState (msg : String)
  | ServiceError (msg : String)
  | InternalError (msg : String)
  | Uncaught (msg : String)
deriving DecidableEq, Repr

/-- A numeric value inside the details payload: either the DynamoDB-native
Decimal wrapper (as stored) or a plain Python int (after translation).
Catalog identifiers are integral, so the carried value is an Int. -/
inductive DBVal where
  | decimal (n : Int)
  | pyint (n : Int)
deriving DecidableEq, Repr

/-- Python truthiness of a number: zero is falsy. -/
def DBVal.truthy : DBVal → Bool
  | .decimal n => n != 0
  | .pyint n => n != 0

/-- Python int(x) on an integral numeric value. -/
def DBVal.toInt : DBVal → Int
  | .decimal n => n
  | .pyint n => n

/-- The details payload of an action status (the keys the source reads
and writes; further keys never influence control flow). -/
structure Details where
  deriva_id : Option DBVal := none
  message : Option String := none
  error_msg : Option String := none
deriving DecidableEq, Repr

/-- Python truthiness of the details dict: absent or empty is falsy. -/
def detailsTruthy : Option Details → Bool
  | none => false
  | some d => !(d == { deriva_id := none, message := none, error_msg := none })

/-- One persisted Action record (spec section 3), keyed by action_id. -/
structure ActionRecord where
  action_id : String
  request_id : String
  status : String
  manage_by : List String
  monitor_by : List String
  creator_id : String
  release_after : String
  label : Option String := none
  details : Option Details := none
deriving DecidableEq, Repr

/-- utils.translate_status: if details.deriva_id is truthy (DynamoDB stores
int as Decimal), replace it by int(details.deriva_id). The test is Python
truthiness, so an absent or zero value is left untouched. -/
def translate_status (r : ActionRecord) : ActionRecord :=
  match r.details with
  | none => r
  | some d =>
    match d.deriva_id with
    | none => r
    | some v =>
      if v.truthy then
        { r with details := some { d with deriva_id := some (.pyint v.toInt) } }
      else r

/-! ## ActionStore operations (utils.py) -/

/-- utils.read_action_status: DynamoDB get_item keyed by action_id;
an absent entry raises NotFound. -/
def read_action_status (table : List ActionRecord) (action_id : String) :
    Except ApErr ActionRecord :=
  match table.find? (fun r => r.action_id == action_id) with
  | some entry => .ok entry
  | none => .error (.NotFound ("Action ID " ++ action_id ++ " not found in status database"))

/-- The paginated, server-side-filtered scan of utils.read_action_by_request:
each element of pages is one scan response (its Items already restricted by
the FilterExpression on request_id); the loop concatenates the pages. -/
def scan_filtered (pages : List (List ActionRecord)) (request_id : String) :
    List ActionRecord :=
  (pages.map (fun page => page.filter (fun r => r.request_id == request_id))).flatten

/-- utils.read_action_by_request: scan all pages, then require exactly
0 or 1 matching entry; 2+ is an invariant violation (InternalError). -/
def read_action_by_request (pages : List (List ActionRecord)) (request_id : String) :
    Except ApErr ActionRecord :=
  match scan_filtered pages request_id with
  | [] => .error (.NotFound ("Request ID '" ++ request_id ++ "' not found in status database"))
  | [entry] => .ok entry
  | _ :: _ :: _ =>
    .error (.InternalError ("Multiple entries found for request ID '" ++ request_id ++
      "'. Please report this error."))

/-- utils.generate_action_id: draw candidate ids until one is not present in
the table. The unbounded loop over random ObjectIds is modelled by an
explicit candidate stream; an exhausted stream yields none (unreachable in
the source, whose loop continues forever). -/
def generate_action_id (table : List ActionRecord) : List String → Option String
  | [] => none
  | c :: rest =>
    match read_action_status table c with
    | .error (.NotFound _) => some c
    | _ => generate_action_id table rest

/-- utils.create_action_status: assign a fresh action_id, default the details
payload when falsy, then put_item with ConditionExpression
Attr(action_id).not_exists(); any put failure (the conditional check
included) is raised as ServiceError. Returns the stored record and the new
table. -/
def create_action_status (table : List ActionRecord) (job : ActionRecord)
    (candidates : List String) : Except ApErr (ActionRecord × List ActionRecord) :=
  match generate_action_id table candidates with
  | none => .error (.ServiceError "action id candidates exhausted")
  | some aid =>
    let job1 := { job with action_id := aid }
    let job2 :=
      if detailsTruthy job1.details then job1
      else { job1 with details := some { message := some "Action started" } }
    if table.any (fun r => r.action_id == aid) then
      .error (.ServiceError "ConditionalCheckFailedException")
    else
      .ok (job2, table ++ [job2])

/-- utils.delete_action_status: read (NotFound propagates), delete_item, then
verify by re-reading. On a delete_item exception the source builds
err.ServiceError(str(e)) but does not raise it (the raise keyword is
missing), so execution falls through to the verification read.
delete_op_raises models whether the store delete call raises; when it does,
the record is still present. -/
def delete_action_status (table : List ActionRecord) (action_id : String)
    (delete_op_raises : Bool) : Except ApErr (List ActionRecord) :=
  match read_action_status table action_id with
  | .error e => .error e
  | .ok _ =>
    let table2 :=
      if delete_op_raises then table
      else table.filter (fun r => !(r.action_id == action_id))
    match read_action_status table2 action_id with
    | .error (.NotFound _) => .ok table2
    | .error e => .error e
    | .ok _ => .error (.InternalError "Action status was not deleted.")

/-! ## Authorization and the API endpoints (api.py) -/

/-- The authenticated caller, as exposed by the token checker: the set of
verified identity principals and the effective (primary) identity. -/
structure AuthState where
  identities : List String
  effective_identity : String
deriving DecidableEq, Repr

/-- Modelled from the spec: AuthorizationGate (spec sections 2 and 6). The
check_authorization call comes from the external
globus_action_provider_tools library (not repository code); per the spec it
is the pure predicate that the caller identity set intersects the allowed
principal set. The endpoints below call it without the
all-authenticated-users flag. -/
def check_authorization (identities allowed : List String) : Bool :=
  identities.any (fun i => allowed.contains i)

/-- The body of a run request (the keys read by api.run and
api.start_action). -/
structure Body where
  operation : String
  data_url : Option String := none
  catalog_id : Option String := none
  catalog_acls : Option (List String) := none
  server : Option String := none
deriving DecidableEq, Repr

/-- Python truthiness of body.get(key) for a string-valued key:
absent or empty is falsy. -/
def optStrTruthy : Option String → Bool
  | none => false
  | some s => !(s == "")

/-- Python truthiness of body.get(catalog_acls): absent or empty is falsy. -/
def optAclsTruthy : Option (List String) → Bool
  | none => false
  | some l => !l.isEmpty

/-- A request value that may be a single string or a list of strings
(manage_by and monitor_by overrides). -/
inductive StrOrList where
  | str (s : String)
  | strs (l : List String)
deriving DecidableEq, Repr

/-- The isinstance(x, str) normalization in api.run: wrap a bare string,
keep a list as list(x). -/
def StrOrList.toPyList : StrOrList → List String
  | .str s => [s]
  | .strs l => l

/-- The top-level run request (api.run). deadline carries the instant
parse_datetime returns, as an integer timestamp. -/
structure RunRequest where
  request_id : String
  body : Body
  label : Option String := none
  manage_by : Option StrOrList := none
  monitor_by : Option StrOrList := none
  release_after : Option String := none
  deadline : Option Int := none
deriving DecidableEq, Repr

/-- One entry of CONFIG KNOWN_CATALOGS (configuration data, not src code):
a keyword catalog_id mapped to a concrete catalog_id and its server. -/
structure KnownCatalog where
  keyword : String
  catalog_id : String
  server : String
deriving DecidableEq, Repr

/-- The operation dispatched to a spawned process by api.start_action. -/
inductive SpawnTarget where
  | restore
  | ingest
  | modify
deriving DecidableEq, Repr

/-- The keyword-catalog processing at the top of api.start_action: a
catalog_id matching a known keyword is replaced by the configured
catalog_id; the server must be absent (then it is filled in) or equal to
the configured one, else a ValueError escapes. -/
def apply_known_catalog (known : List KnownCatalog) (b : Body) :
    Except ApErr Body :=
  match b.catalog_id with
  | none => .ok b
  | some cid =>
    match known.find? (fun k => k.keyword == cid) with
    | none => .ok b
    | some info =>
      let b1 := { b with catalog_id := some info.catalog_id }
      if !(optStrTruthy b.server) then .ok { b1 with server := some info.server }
      else if b.server == some info.server then .ok b1
      else .error (.Uncaught "ValueError: server does not match server for catalog")

/-- api.start_action: process the keyword catalog, then spawn the process
for the operation; an unknown operation raises InvalidRequest. Returns the
spawned target and the body it receives. -/
def start_action (known : List KnownCatalog) (b : Body) :
    Except ApErr (SpawnTarget × Body) :=
  match apply_known_catalog known b with
  | .error e => .error e
  | .ok b1 =>
    if b1.operation == "restore" then .ok (.restore, b1)
    else if b1.operation == "ingest" then .ok (.ingest, b1)
    else if b1.operation == "modify" then .ok (.modify, b1)
    else .error (.InvalidRequest ("Operation '" ++ b1.operation ++ "' unknown"))

/-- The job dict api.run builds for a new action before persisting: status
ACTIVE, manage_by and monitor_by defaulted to the caller identities unless
overridden (with the string-to-list normalization), creator_id the
effective identity, release_after defaulted to 30 days (serialized as an
ISO duration; the parse/format round trip of an override is modelled as
the identity). The action_id is assigned later by create_action_status. -/
def build_job (auth : AuthState) (req : RunRequest) : ActionRecord :=
  { action_id := ""
  , request_id := req.request_id
  , status := "ACTIVE"
  , manage_by := (match req.manage_by with
      | some v => v.toPyList
      | none => auth.identities)
  , monitor_by := (match req.monitor_by with
      | some v => v.toPyList
      | none => auth.identities)
  , creator_id := auth.effective_identity
  , release_after := (match req.release_after with
      | some s => s
      | none => "P30D")
  , label := req.label
  , details := none }

/-- Seconds in the one-day completion estimate of api.run. -/
def oneDay : Int := 86400

/-- The outcome of a successful run call: the translated status returned,
the HTTP code (202 on creation, 200 on idempotent replay), the table after
the call, and the processes started (spawn target with its body). -/
structure RunResult where
  resp : ActionRecord
  code : Nat
  table : List ActionRecord
  started : List (String × SpawnTarget × Body)
deriving DecidableEq, Repr

/-- The creation branch of api.run (the except err.NotFound arm after the
deadline check): persist via create_action_status, then start_action. -/
def run_create (known : List KnownCatalog) (auth : AuthState)
    (table : List ActionRecord) (candidates : List String) (req : RunRequest) :
    Except ApErr RunResult :=
  match create_action_status table (build_job auth req) candidates with
  | .error e => .error e
  | .ok (job, table2) =>
    match start_action known req.body with
    | .error e => .error e
    | .ok (target, b2) =>
      .ok { resp := translate_status job
          , code := 202
          , table := table2
          , started := [(job.action_id, target, b2)] }

/-- api.run. schema_ok stands for the jsonschema.validate call against the
configured INPUT_SCHEMA (configuration data, not src code); the
operation-specific checks that follow are the literal src checks. Only
then is the request_id looked up: a found record is returned translated
(HTTP 200) with no new work; NotFound leads to the deadline check and the
creation branch; any other lookup error propagates. now is the current
instant; the completion estimate is now plus one day. -/
def run (schema_ok : Body → Bool) (known : List KnownCatalog) (auth : AuthState)
    (now : Int) (table : List ActionRecord) (candidates : List String)
    (req : RunRequest) : Except ApErr RunResult :=
  if !(schema_ok req.body) then
    .error (.InvalidRequest "input body failed jsonschema validation")
  else if (req.body.operation == "ingest" || req.body.operation == "restore")
      && !(optStrTruthy req.body.data_url) then
    .error (.InvalidRequest "You must provide a data_url to ingest or restore.")
  else if req.body.operation == "modify" && !(optStrTruthy req.body.catalog_id) then
    .error (.InvalidRequest "You must specify the catalog_id to modify.")
  else if req.body.operation == "modify" && !(optAclsTruthy req.body.catalog_acls) then
    .error (.InvalidRequest ("You must specify content in the catalog to modify. " ++
      "(Currently only catalog_acls qualifies.)"))
  else
    match read_action_by_request [table] req.request_id with
    | .ok status =>
      .ok { resp := translate_status status, code := 200, table := table, started := [] }
    | .error (.NotFound _) =>
      match req.deadline with
      | some dl =>
        if dl < now + oneDay then
          .error (.InvalidRequest "Processing likely to exceed deadline")
        else run_create known auth table candidates req
      | none => run_create known auth table candidates req
    | .error e => .error e

/-- api.status: read by action_id, require the caller to pass the
monitor_by authorization check, return the translated status. -/
def status_endpoint (auth : AuthState) (table : List ActionRecord)
    (action_id : String) : Except ApErr ActionRecord :=
  match read_action_status table action_id with
  | .error e => .error e
  | .ok st =>
    if !(check_authorization auth.identities st.monitor_by) then
      .error (.NotAuthorized ("You cannot view the status of action " ++ action_id))
    else .ok (translate_status st)

/-- api.cancel: read, require the manage_by authorization check, reject
terminal statuses with InvalidState, run the cancel_action stub (a no-op),
re-read and return the translated status. -/
def cancel_endpoint (auth : AuthState) (table : List ActionRecord)
    (action_id : String) : Except ApErr ActionRecord :=
  match read_action_status table action_id with
  | .error e => .error e
  | .ok st =>
    if !(check_authorization auth.identities st.manage_by) then
      .error (.NotAuthorized ("You cannot cancel action " ++ action_id))
    else
      let clean := translate_status st
      if clean.status == "SUCCEEDED" || clean.status == "FAILED" then
        .error (.InvalidState ("Action " ++ action_id ++ " already completed"))
      else
        match read_action_status table action_id with
        | .error e => .error e
        | .ok st2 => .ok (translate_status st2)

/-- api.release: read, require the manage_by authorization check, reject
non-terminal statuses with InvalidState, delete, and return the last
translated snapshot together with the table after deletion. -/
def release_endpoint (auth : AuthState) (table : List ActionRecord)
    (action_id : String) (delete_op_raises : Bool) :
    Except ApErr (ActionRecord × List ActionRecord) :=
  match read_action_status table action_id with
  | .error e => .error e
  | .ok st =>
    if !(check_authorization auth.identities st.manage_by) then
      .error (.NotAuthorized ("You cannot cancel action " ++ action_id))
    else
      let clean := translate_status st
      if clean.status == "ACTIVE" || clean.status == "INACTIVE" then
        .error (.InvalidState ("Action " ++ action_id ++
          " not completed and cannot be released"))
      else
        match delete_action_status table action_id delete_op_raises with
        | .error e => .error e
        | .ok table2 => .ok (clean, table2)

/-! ## Schema compiler (utils.make_table and friends) -/

/-- The field constraints a TableSchema field may carry. -/
structure Constraints where
  required : Bool := false
  unique : Bool := false
deriving DecidableEq, Repr

/-- One TableSchema field definition. -/
structure FieldDef where
  name : String
  ftype : String := "string"
  constraints : Constraints := {}
  description : Option String := none
deriving DecidableEq, Repr

/-- The primaryKey entry of a table definition: a bare field name or an
ordered list of field names. -/
inductive PrimaryKey where
  | str (s : String)
  | list (l : List String)
deriving DecidableEq, Repr

/-- One TableSchema foreign key definition; fields may be given as a bare
name or a list, on both sides. An empty reference resource means the table
itself. -/
structure FKDef where
  fields : StrOrList
  resource : String
  ref_fields : StrOrList
deriving DecidableEq, Repr

/-- One TableSchema table definition. -/
structure TableDef where
  name : String
  fields : List FieldDef
  primaryKey : Option PrimaryKey := none
  foreignKeys : List FKDef := []
  description : Option String := none
deriving DecidableEq, Repr

/-- The ERMrest column types produced by utils.make_type. -/
inductive ErmrestType where
  | text
  | timestamptz
  | int8
  | float8
  | textArray
deriving DecidableEq, Repr

/-- utils.make_type: the fixed mapping of TableSchema type literals to
ERMrest builtin types; any other literal raises ValueError naming it. -/
def make_type (col_type : String) : Except String ErmrestType :=
  if col_type == "string" then .ok .text
  else if col_type == "datetime" then .ok .timestamptz
  else if col_type == "integer" then .ok .int8
  else if col_type == "number" then .ok .float8
  else if col_type == "list" then .ok .textArray
  else .error ("Mapping undefined for type '" ++ col_type ++ "'")

/-- A compiled ERMrest column definition (Column.define). -/
structure ColumnDef where
  name : String
  ctype : ErmrestType
  nullok : Bool
  comment : Option String
deriving DecidableEq, Repr

/-- utils.make_column. -/
def make_column (cdef : FieldDef) : Except String ColumnDef :=
  match make_type cdef.ftype with
  | .error e => .error e
  | .ok t =>
    .ok { name := cdef.name
        , ctype := t
        , nullok := !(cdef.constraints.required)
        , comment := cdef.description }

/-- A compiled ERMrest key definition (Key.define). -/
structure KeyDef where
  unique_columns : List String
  constraint_names : List (List String)
deriving DecidableEq, Repr

/-- utils.make_key. -/
def make_key (tname : String) (cols : List String) (schema_name : String) : KeyDef :=
  { unique_columns := cols
  , constraint_names := [[schema_name, tname ++ "_" ++ String.intercalate "_" cols ++ "_key"]] }

/-- A compiled ERMrest foreign key definition (ForeignKey.define). -/
structure FKeyDef where
  foreign_key_columns : List String
  pk_schema : String
  pk_table : String
  pk_columns : List String
  constraint_names : List (List String)
deriving DecidableEq, Repr

/-- utils.make_fkey: normalize bare-string field shorthands to lists and
resolve an empty reference resource to the table itself. -/
def make_fkey (tname : String) (fkdef : FKDef) (schema_name : String) : FKeyDef :=
  let fkcols := fkdef.fields.toPyList
  let pktable := if fkdef.resource == "" then tname else fkdef.resource
  let pkcols := fkdef.ref_fields.toPyList
  { foreign_key_columns := fkcols
  , pk_schema := schema_name
  , pk_table := pktable
  , pk_columns := pkcols
  , constraint_names :=
      [[schema_name, tname ++ "_" ++ String.intercalate "_" fkcols ++ "_fkey"]] }

/-- The isinstance normalization of primaryKey in utils.make_table:
a bare string becomes a one-element list. -/
def normalizePk : Option PrimaryKey → Option (List String)
  | some (.str s) => some [s]
  | some (.list l) => some l
  | none => none

/-- frozenset equality of two field-name lists, as utils.make_table uses it
for key dedup: equality as sets, not as ordered lists. -/
def sameSet (a b : List String) : Bool :=
  a.all (fun x => b.contains x) && b.all (fun x => a.contains x)

/-- The key_defs argument utils.make_table passes to Table.define: the
primary key first when present and truthy (an empty list is falsy in
Python), then one singleton key per unique field whose frozenset is not
already in keysets (keysets holds exactly the primary key field set when
primaryKey was a string or list). -/
def make_table_key_defs (tdef : TableDef) (schema_name : String) : List KeyDef :=
  let pk := normalizePk tdef.primaryKey
  let keysets : List (List String) :=
    match pk with
    | some l => [l]
    | none => []
  (match pk with
   | some l => if l.isEmpty then [] else [make_key tdef.name l schema_name]
   | none => []) ++
  (tdef.fields.filter
      (fun c => c.constraints.unique && !(keysets.any (fun ks => sameSet ks [c.name])))).map
    (fun c => make_key tdef.name [c.name] schema_name)

/-- A compiled table (the result of Table.define as utils.make_table
invokes it). -/
structure TableOut where
  table_name : String
  column_defs : List ColumnDef
  key_defs : List KeyDef
  fkey_defs : List FKeyDef
  comment : Option String
  provide_system : Bool
deriving DecidableEq, Repr

/-- Mapping make_column over the fields, propagating the first error
(list comprehensions evaluate left to right and a raise aborts). -/
def make_columns : List FieldDef → Except String (List ColumnDef)
  | [] => .ok []
  | c :: rest =>
    match make_column c with
    | .error e => .error e
    | .ok col =>
      match make_columns rest with
      | .error e => .error e
      | .ok cols => .ok (col :: cols)

/-- utils.make_table. -/
def make_table (tdef : TableDef) (schema_name : String)
    (provide_system : Bool := true) : Except String TableOut :=
  match make_columns tdef.fields with
  | .error e => .error e
  | .ok cols =>
    .ok { table_name := tdef.name
        , column_defs := cols
        , key_defs := make_table_key_defs tdef schema_name
        , fkey_defs := tdef.foreignKeys.map (fun fk => make_fkey tdef.name fk schema_name)
        , comment := tdef.description
        , provide_system := provide_system }

/-! ## Restore output parsing (api.action_restore) and the ingest schema
file lookup (api.action_ingest) -/

/-- Whether sep occurs as a contiguous substring (Python: sep in s). -/
def containsSub (sep : List Char) : List Char → Bool
  | [] => sep.isEmpty
  | c :: rest => sep.isPrefixOf (c :: rest) || containsSub sep rest

/-- The part of s before the first occurrence of sep (all of s when sep
does not occur): Python s.split(sep)[0] for a nonempty sep. -/
def beforeFirst (sep : List Char) : List Char → List Char
  | [] => []
  | c :: rest =>
    if sep.isPrefixOf (c :: rest) then []
    else c :: beforeFirst sep rest

/-- The part of s after the last occurrence of sep (all of s when sep does
not occur): Python s.split(sep)[-1] for a nonempty sep. The last
occurrence in s is the first occurrence of the reversed sep in the
reversed s. -/
def afterLast (sep s : List Char) : List Char :=
  (beforeFirst sep.reverse s.reverse).reverse

/-- The part of s strictly after the first occurrence of sep, when sep
occurs. -/
def afterFirstOpt (sep : List Char) : List Char → Option (List Char)
  | [] => if sep.isEmpty then some [] else none
  | c :: rest =>
    if sep.isPrefixOf (c :: rest) then some ((c :: rest).drop sep.length)
    else afterFirstOpt sep rest

/-- The ASCII whitespace bytes Python bytes.strip removes. -/
def pyWhitespace : List Char := [' ', '\t', '\n', '\x0d', Char.ofNat 11, Char.ofNat 12]

/-- Python bytes.strip(). -/
def pyStrip (s : List Char) : List Char :=
  ((s.dropWhile (fun c => pyWhitespace.contains c)).reverse.dropWhile
      (fun c => pyWhitespace.contains c)).reverse

/-- The digits-only value of a list of characters; none when empty or when
a non-digit occurs. -/
def digitsVal (s : List Char) : Option Nat :=
  if s.isEmpty then none
  else if s.all Char.isDigit then
    some (s.foldl (fun acc c => 10 * acc + (c.toNat - 48)) 0)
  else none

/-- Python int() on a byte string: strip whitespace, optional sign, then
decimal digits (the underscore digit-group separators Python also accepts
are not modelled; no input below uses them). -/
def pyInt (s : List Char) : Option Int :=
  match pyStrip s with
  | '+' :: rest => (digitsVal rest).map (fun n => (n : Int))
  | '-' :: rest => (digitsVal rest).map (fun n => -(n : Int))
  | rest => (digitsVal rest).map (fun n => (n : Int))

/-- The restore success marker. -/
def csMarker : List Char := "completed successfully".toList

/-- The restore catalog marker. -/
def rocMarker : List Char := "Restore of catalog".toList

/-- The parsing step of api.action_restore over the combined
stderr+stdout of the restore tool: fail unless the success marker occurs
somewhere; otherwise take the text after the last catalog marker (all of
the output when that marker is absent), cut it at the first following
success marker, strip it, take the segment after the last slash and parse
it with int(); an unparsable segment is a parse failure. -/
def parse_restore_output (msg : List Char) : Except String Int :=
  if !(containsSub csMarker msg) then
    .error "DERIVA restore failed"
  else
    let deriva_link := pyStrip (beforeFirst csMarker (afterLast rocMarker msg))
    match pyInt (afterLast [Char.ofNat 47] deriva_link) with
    | some n => .ok n
    | none => .error "Restore script output parsing failed"

/-- The spec shape of a successful restore output (spec section 6): the
catalog marker occurs, and the success marker occurs after it. Stated from
the spec wording, to compare with the source behaviour. -/
def specSuccessShape (msg : List Char) : Bool :=
  match afterFirstOpt rocMarker msg with
  | some rest => containsSub csMarker rest
  | none => false

/-- The outcome of the schema-file lookup step of api.action_ingest. -/
inductive LocateResult where
  | failed
  | proceed (schema_file : List Char)
deriving DecidableEq, Repr

/-- The non-hidden JSON candidates among the unpacked files, in listing
order (api.action_ingest): names ending in .json and not starting with a
dot. -/
def json_candidates (files : List (List Char)) : List (List Char) :=
  files.filter (fun f =>
    (".json".toList).isSuffixOf f && !((".".toList).isPrefixOf f))

/-- The schema-file lookup of api.action_ingest: index [0] of the
candidate list. An empty candidate list raises IndexError, caught by the
surrounding handler which writes a FAILED status; otherwise the first
candidate is used. -/
def locate_schema_file (files : List (List Char)) : LocateResult :=
  match json_candidates files with
  | [] => .failed
  | c :: _ => .proceed c

/-! ## Theorems -/

/-- C4: the type mapping of utils.make_type is total exactly on string,
datetime, integer, number and list, mapping them to text, timestamptz,
int8, float8 and the text array; every other type literal fails with the
UnsupportedType error (raised as ValueError in the source) whose message
names the offending literal, with no fallback mapping. -/
theorem make_type_fixed_mapping (t : String)
    (h : t ≠ "string" ∧ t ≠ "datetime" ∧ t ≠ "integer" ∧ t ≠ "number" ∧ t ≠ "list") :
    make_type "string" = .ok .text ∧
    make_type "datetime" = .ok .timestamptz ∧
    make_type "integer" = .ok .int8 ∧
    make_type "number" = .ok .float8 ∧
    make_type "list" = .ok .textArray ∧
    make_type t = .error ("Mapping undefined for type '" ++ t ++ "'") := by
  refine ⟨rfl, rfl, rfl, rfl, rfl, ?_⟩
  simp [make_type, h.1, h.2.1, h.2.2.1, h.2.2.2.1, h.2.2.2.2]

/-- Witness for C4 at the literal "object". -/
theorem make_type_fixed_mapping_witness :
    make_type "string" = .ok .text ∧
    make_type "datetime" = .ok .timestamptz ∧
    make_type "integer" = .ok .int8 ∧
    make_type "number" = .ok .float8 ∧
    make_type "list" = .ok .textArray ∧
    make_type "object" = .error ("Mapping undefined for type '" ++ "object" ++ "'") :=
  make_type_fixed_mapping "object" (by decide)

/-- C7 counterexample: when two candidate schema files exist among the
unpacked contents, the lookup does not fail; it silently proceeds with
the first candidate in listing order. -/
theorem locate_schema_file_two_candidates :
    json_candidates ["a.json".toList, "b.json".toList] =
      ["a.json".toList, "b.json".toList] ∧
    locate_schema_file ["a.json".toList, "b.json".toList] =
      .proceed ("a.json".toList) := by
  exact ⟨rfl, rfl⟩

/-- C7 amended: zero candidate schema files cause the FAILED path (the [0]
index raises, caught by the handler); with one or more candidates the
first one in listing order is used, even when several exist. -/
theorem locate_schema_file_amended (files : List (List Char)) :
    (json_candidates files = [] → locate_schema_file files = .failed) ∧
    (∀ c rest, json_candidates files = c :: rest →
      locate_schema_file files = .proceed c) := by
  constructor
  · intro h
    simp [locate_schema_file, h]
  · intro c rest h
    simp [locate_schema_file, h]

/-- Witness for C7 amended, on an empty directory and on one with two
candidates. -/
theorem locate_schema_file_amended_witness :
    locate_schema_file [] = .failed ∧
    locate_schema_file ["a.json".toList, "b.json".toList] =
      .proceed ("a.json".toList) :=
  ⟨(locate_schema_file_amended []).1 rfl,
   (locate_schema_file_amended ["a.json".toList, "b.json".toList]).2
     ("a.json".toList) ["b.json".toList] (by decide)⟩

/-- C5 counterexample: an output in which the success marker appears
before the catalog marker (so it lacks the success shape of the claim,
where the catalog marker is followed later by the success marker) still
yields the identifier 42 instead of a parse failure. -/
theorem parse_restore_output_reversed_markers :
    specSuccessShape ("a completed successfully Restore of catalog 42".toList) = false ∧
    parse_restore_output ("a completed successfully Restore of catalog 42".toList) =
      .ok 42 :=
  ⟨by decide, by rfl⟩

/-- C5 amended: the parser checks only that the success marker occurs
somewhere in the combined output; it then takes the text after the last
catalog marker (the whole output if that marker is absent), cuts it at the
first following success marker, strips it, takes the trailing path
segment and parses it as an integer, failing when that parse fails. In
particular the shape example of the claim yields 42, and every output
without the success marker fails with no identifier returned. -/
theorem parse_restore_output_amended (msg : List Char)
    (h : containsSub csMarker msg = false) :
    parse_restore_output ("Restore of catalog 42 completed successfully".toList) =
      .ok 42 ∧
    parse_restore_output msg = .error "DERIVA restore failed" := by
  refine ⟨by rfl, ?_⟩
  simp [parse_restore_output, h]

/-- Witness for C5 amended on an output with no success marker. -/
theorem parse_restore_output_amended_witness :
    parse_restore_output ("Restore of catalog 42 completed successfully".toList) =
      .ok 42 ∧
    parse_restore_output ("Restore of catalog 42 failed".toList) =
      .error "DERIVA restore failed" :=
  parse_restore_output_amended ("Restore of catalog 42 failed".toList) (by decide)

/-- C9 counterexample: a stored status whose details carry the backend
Decimal value 0 is returned by translate_status with the Decimal wrapper
intact (Python truthiness skips zero), so not every numeric identifier
value is rendered as a plain integer. -/
theorem translate_status_zero_keeps_decimal :
    translate_status
      { action_id := "a1", request_id := "r1", status := "SUCCEEDED"
      , manage_by := ["u"], monitor_by := ["u"], creator_id := "u"
      , release_after := "P30D"
      , details := some { deriva_id := some (.decimal 0) } } =
      { action_id := "a1", request_id := "r1", status := "SUCCEEDED"
      , manage_by := ["u"], monitor_by := ["u"], creator_id := "u"
      , release_after := "P30D"
      , details := some { deriva_id := some (.decimal 0) } } := by
  decide

/-- C9 amended: every nonzero backend Decimal identifier in the details
payload is rendered as a plain integer by translate_status; the value
zero (like an absent identifier) is left in its backend form, because the
presence test is a Python truthiness test. -/
theorem translate_status_amended (r : ActionRecord) (d : Details) (n : Int)
    (hd : r.details = some d) (hid : d.deriva_id = some (.decimal n)) (hn : n ≠ 0) :
    translate_status r =
      { r with details := some { d with deriva_id := some (.pyint n) } } := by
  simp [translate_status, hd, hid, DBVal.truthy, DBVal.toInt, hn]

/-- Witness for C9 amended at the Decimal value 7. -/
theorem translate_status_amended_witness :
    translate_status
      { action_id := "a1", request_id := "r1", status := "SUCCEEDED"
      , manage_by := ["u"], monitor_by := ["u"], creator_id := "u"
      , release_after := "P30D"
      , details := some { deriva_id := some (.decimal 7) } } =
      { action_id := "a1", request_id := "r1", status := "SUCCEEDED"
      , manage_by := ["u"], monitor_by := ["u"], creator_id := "u"
      , release_after := "P30D"
      , details := some { deriva_id := some (.pyint 7) } } :=
  translate_status_amended _ _ 7 rfl rfl (by decide)

/-- C10: when the record exists but the store delete operation raises,
delete_action_status raises InternalError (never ServiceError, whose
value the source constructs without raising), after the verification read
finds the record still present; the record stays in the store. -/
theorem delete_action_status_failed_delete (table : List ActionRecord)
    (action_id : String) (r : ActionRecord)
    (h : read_action_status table action_id = .ok r) :
    delete_action_status table action_id true =
      .error (.InternalError "Action status was not deleted.") ∧
    (∀ m, delete_action_status table action_id true ≠ .error (.ServiceError m)) := by
  have h1 : delete_action_status table action_id true =
      .error (.InternalError "Action status was not deleted.") := by
    simp [delete_action_status, h]
  refine ⟨h1, ?_⟩
  intro m hc
  rw [h1] at hc
  simp at hc

/-- Witness for C10 on a one-record store. -/
theorem delete_action_status_failed_delete_witness :
    delete_action_status
      [{ action_id := "a1", request_id := "r1", status := "SUCCEEDED"
       , manage_by := ["u"], monitor_by := ["u"], creator_id := "u"
       , release_after := "P30D" }] "a1" true =
      .error (.InternalError "Action status was not deleted.") ∧
    (∀ m, delete_action_status
      [{ action_id := "a1", request_id := "r1", status := "SUCCEEDED"
       , manage_by := ["u"], monitor_by := ["u"], creator_id := "u"
       , release_after := "P30D" }] "a1" true ≠ .error (.ServiceError m)) :=
  delete_action_status_failed_delete _ "a1"
    { action_id := "a1", request_id := "r1", status := "SUCCEEDED"
    , manage_by := ["u"], monitor_by := ["u"], creator_id := "u"
    , release_after := "P30D" } (by rfl)

/-- The page loop of the scan gathers exactly the matching records of the
whole table: filtering distributes over the page concatenation. -/
theorem scan_filtered_eq (pages : List (List ActionRecord)) (rid : String) :
    scan_filtered pages rid =
      pages.flatten.filter (fun r => r.request_id == rid) := by
  induction pages with
  | nil => rfl
  | cons p ps ih =>
    simp only [scan_filtered, List.map_cons, List.flatten_cons, List.filter_append] at ih ⊢
    rw [ih]

/-- C8: the lookup by request_id over the paginated scan yields NotFound
when no record of the table matches, the single matching record when
exactly one matches, and InternalError (never a silently chosen record)
when two or more match. -/
theorem read_action_by_request_cases (pages : List (List ActionRecord)) (rid : String) :
    (pages.flatten.filter (fun r => r.request_id == rid) = [] →
      read_action_by_request pages rid =
        .error (.NotFound ("Request ID '" ++ rid ++ "' not found in status database"))) ∧
    (∀ entry, pages.flatten.filter (fun r => r.request_id == rid) = [entry] →
      read_action_by_request pages rid = .ok entry) ∧
    (∀ e1 e2 rest, pages.flatten.filter (fun r => r.request_id == rid) = e1 :: e2 :: rest →
      read_action_by_request pages rid =
        .error (.InternalError ("Multiple entries found for request ID '" ++ rid ++
          "'. Please report this error."))) := by
  have hs := scan_filtered_eq pages rid
  refine ⟨?_, ?_, ?_⟩
  · intro h0
    simp [read_action_by_request, hs, h0]
  · intro entry h1
    simp [read_action_by_request, hs, h1]
  · intro e1 e2 rest h2
    simp [read_action_by_request, hs, h2]

/-- Witness for C8 on concrete one-page tables with zero, one and two
matching records. -/
theorem read_action_by_request_cases_witness :
    read_action_by_request
      [[{ action_id := "a1", request_id := "r1", status := "ACTIVE"
        , manage_by := ["u"], monitor_by := ["u"], creator_id := "u"
        , release_after := "P30D" }]] "r9" =
      .error (.NotFound ("Request ID '" ++ "r9" ++ "' not found in status database")) ∧
    read_action_by_request
      [[{ action_id := "a1", request_id := "r1", status := "ACTIVE"
        , manage_by := ["u"], monitor_by := ["u"], creator_id := "u"
        , release_after := "P30D" }]] "r1" =
      .ok { action_id := "a1", request_id := "r1", status := "ACTIVE"
          , manage_by := ["u"], monitor_by := ["u"], creator_id := "u"
          , release_after := "P30D" } ∧
    read_action_by_request
      [[{ action_id := "a1", request_id := "r1", status := "ACTIVE"
        , manage_by := ["u"], monitor_by := ["u"], creator_id := "u"
        , release_after := "P30D" }
       ,{ action_id := "a2", request_id := "r1", status := "ACTIVE"
        , manage_by := ["u"], monitor_by := ["u"], creator_id := "u"
        , release_after := "P30D" }]] "r1" =
      .error (.InternalError ("Multiple entries found for request ID '" ++ "r1" ++
        "'. Please report this error.")) :=
  ⟨(read_action_by_request_cases _ "r9").1 (by decide),
   (read_action_by_request_cases _ "r1").2.1 _ (by decide),
   (read_action_by_request_cases _ "r1").2.2
     { action_id := "a1", request_id := "r1", status := "ACTIVE"
     , manage_by := ["u"], monitor_by := ["u"], creator_id := "u"
     , release_after := "P30D" }
     { action_id := "a2", request_id := "r1", status := "ACTIVE"
     , manage_by := ["u"], monitor_by := ["u"], creator_id := "u"
     , release_after := "P30D" } [] (by decide)⟩

/-- A caller disjoint from the allowed principal set fails the
authorization gate. -/
theorem check_authorization_eq_false_of_disjoint {ids allowed : List String}
    (h : ∀ i ∈ ids, i ∉ allowed) : check_authorization ids allowed = false := by
  unfold check_authorization
  rw [List.any_eq_false]
  intro x hx
  simpa using h x hx

/-- C6: getStatus fails NotAuthorized whenever the caller identity set
does not intersect monitor_by; cancel and release fail NotAuthorized
whenever it does not intersect manage_by, and that check depends only on
manage_by (monitor_by is unconstrained in the second part). -/
theorem lifecycle_authorization (auth : AuthState) (table : List ActionRecord)
    (aid : String) (st : ActionRecord)
    (hget : read_action_status table aid = .ok st) :
    ((∀ i ∈ auth.identities, i ∉ st.monitor_by) →
      status_endpoint auth table aid =
        .error (.NotAuthorized ("You cannot view the status of action " ++ aid))) ∧
    ((∀ i ∈ auth.identities, i ∉ st.manage_by) →
      cancel_endpoint auth table aid =
        .error (.NotAuthorized ("You cannot cancel action " ++ aid)) ∧
      (∀ b, release_endpoint auth table aid b =
        .error (.NotAuthorized ("You cannot cancel action " ++ aid)))) := by
  constructor
  · intro h
    have hc := check_authorization_eq_false_of_disjoint h
    simp [status_endpoint, hget, hc]
  · intro h
    have hc := check_authorization_eq_false_of_disjoint h
    exact ⟨by simp [cancel_endpoint, hget, hc],
           fun b => by simp [release_endpoint, hget, hc]⟩

/-- Witness for C6: a caller outside both principal sets is rejected by
all three endpoints on a concrete one-record table. -/
theorem lifecycle_authorization_witness :
    status_endpoint { identities := ["u1"], effective_identity := "u1" }
      [{ action_id := "a1", request_id := "r1", status := "ACTIVE"
       , manage_by := ["g1"], monitor_by := ["m1"], creator_id := "c"
       , release_after := "P30D" }] "a1" =
      .error (.NotAuthorized ("You cannot view the status of action " ++ "a1")) ∧
    cancel_endpoint { identities := ["u1"], effective_identity := "u1" }
      [{ action_id := "a1", request_id := "r1", status := "ACTIVE"
       , manage_by := ["g1"], monitor_by := ["m1"], creator_id := "c"
       , release_after := "P30D" }] "a1" =
      .error (.NotAuthorized ("You cannot cancel action " ++ "a1")) ∧
    release_endpoint { identities := ["u1"], effective_identity := "u1" }
      [{ action_id := "a1", request_id := "r1", status := "ACTIVE"
       , manage_by := ["g1"], monitor_by := ["m1"], creator_id := "c"
       , release_after := "P30D" }] "a1" false =
      .error (.NotAuthorized ("You cannot cancel action " ++ "a1")) :=
  ⟨(lifecycle_authorization _ _ "a1" _ (by rfl)).1 (by decide),
   ((lifecycle_authorization _ _ "a1" _ (by rfl)).2 (by decide)).1,
   ((lifecycle_authorization _ _ "a1" _ (by rfl)).2 (by decide)).2 false⟩

/-- Key dedup compares field sets, not ordered lists. -/
theorem sameSet_comm (a b : List String) : sameSet a b = sameSet b a := by
  unfold sameSet
  rw [Bool.and_comm]

/-- C3: with a primary key present (pkl, nonempty after normalization),
the compiled key-constraint list is the primary key first, then one
singleton key per unique field whose singleton field set does not equal
the primary key field set as a set; the dedup is by set identity (sameSet
is symmetric, and a duplicated primary key list such as a,a dedups the
unique field a), and the two cardinality examples of the claim hold. -/
theorem make_table_key_constraints (tdef : TableDef) (schema_name : String)
    (pkl : List String)
    (hpk : normalizePk tdef.primaryKey = some pkl) (hne : pkl ≠ []) :
    make_table_key_defs tdef schema_name =
      make_key tdef.name pkl schema_name ::
        (tdef.fields.filter
            (fun c => c.constraints.unique && !(sameSet pkl [c.name]))).map
          (fun c => make_key tdef.name [c.name] schema_name) ∧
    (∀ a b : List String, sameSet a b = sameSet b a) ∧
    (make_table_key_defs
      { name := "t"
      , fields := [{ name := "a", constraints := { unique := true } }]
      , primaryKey := some (.list ["a"]) } "demo").length = 1 ∧
    (make_table_key_defs
      { name := "t"
      , fields := [{ name := "a" }, { name := "b" },
                   { name := "c", constraints := { unique := true } }]
      , primaryKey := some (.list ["a", "b"]) } "demo").length = 2 ∧
    (make_table_key_defs
      { name := "t"
      , fields := [{ name := "a", constraints := { unique := true } }]
      , primaryKey := some (.list ["a", "a"]) } "demo").length = 1 := by
  refine ⟨?_, sameSet_comm, by decide, by decide, by decide⟩
  have hempty : pkl.isEmpty = false := by
    cases pkl with
    | nil => exact absurd rfl hne
    | cons a l => rfl
  simp [make_table_key_defs, hpk, hempty, List.any_cons, List.any_nil,
    Bool.or_false, List.singleton_append]

/-- Witness for C3 on a concrete table with primary key a and a unique
field b. -/
theorem make_table_key_constraints_witness :
    make_table_key_defs
      { name := "t2"
      , fields := [{ name := "a" }, { name := "b", constraints := { unique := true } }]
      , primaryKey := some (.list ["a"]) } "demo" =
      make_key "t2" ["a"] "demo" ::
        (([{ name := "a" }, { name := "b", constraints := { unique := true } }] :
            List FieldDef).filter
            (fun c => c.constraints.unique && !(sameSet ["a"] [c.name]))).map
          (fun c => make_key "t2" [c.name] "demo") ∧
    (∀ a b : List String, sameSet a b = sameSet b a) ∧
    (make_table_key_defs
      { name := "t"
      , fields := [{ name := "a", constraints := { unique := true } }]
      , primaryKey := some (.list ["a"]) } "demo").length = 1 ∧
    (make_table_key_defs
      { name := "t"
      , fields := [{ name := "a" }, { name := "b" },
                   { name := "c", constraints := { unique := true } }]
      , primaryKey := some (.list ["a", "b"]) } "demo").length = 2 ∧
    (make_table_key_defs
      { name := "t"
      , fields := [{ name := "a", constraints := { unique := true } }]
      , primaryKey := some (.list ["a", "a"]) } "demo").length = 1 :=
  make_table_key_constraints
    { name := "t2"
    , fields := [{ name := "a" }, { name := "b", constraints := { unique := true } }]
    , primaryKey := some (.list ["a"]) } "demo" ["a"] (by rfl) (by decide)

/-- C1 counterexample: the request_id r1 is already persisted (the lookup
finds the record), yet a replay whose body lacks the data_url required for
its ingest operation fails InvalidRequest instead of returning the
existing Action: validation runs before the replay lookup. -/
theorem run_validates_body_before_replay :
    read_action_by_request
      [[{ action_id := "a1", request_id := "r1", status := "ACTIVE"
        , manage_by := ["u"], monitor_by := ["u"], creator_id := "u"
        , release_after := "P30D"
        , details := some { message := some "Action started" } }]] "r1" =
      .ok { action_id := "a1", request_id := "r1", status := "ACTIVE"
          , manage_by := ["u"], monitor_by := ["u"], creator_id := "u"
          , release_after := "P30D"
          , details := some { message := some "Action started" } } ∧
    run (fun _ => true) [] { identities := ["u"], effective_identity := "u" } 0
      [{ action_id := "a1", request_id := "r1", status := "ACTIVE"
       , manage_by := ["u"], monitor_by := ["u"], creator_id := "u"
       , release_after := "P30D"
       , details := some { message := some "Action started" } }] ["a2"]
      { request_id := "r1", body := { operation := "ingest" } } =
      .error (.InvalidRequest "You must provide a data_url to ingest or restore.") :=
  ⟨by rfl, by rfl⟩

/-- C1 amended: when the submitted body passes validation (the input
schema check and the operation-specific field checks) and the request_id
is already persisted, run returns the existing record translated, with
HTTP 200, an unchanged table and no execution unit started. -/
theorem run_idempotent_replay (schema_ok : Body → Bool)
    (known : List KnownCatalog) (auth : AuthState) (now : Int)
    (table : List ActionRecord) (candidates : List String) (req : RunRequest)
    (st : ActionRecord)
    (hschema : schema_ok req.body = true)
    (hdata : ((req.body.operation == "ingest" || req.body.operation == "restore")
        && !(optStrTruthy req.body.data_url)) = false)
    (hcat : (req.body.operation == "modify"
        && !(optStrTruthy req.body.catalog_id)) = false)
    (hacl : (req.body.operation == "modify"
        && !(optAclsTruthy req.body.catalog_acls)) = false)
    (hfound : read_action_by_request [table] req.request_id = .ok st) :
    run schema_ok known auth now table candidates req =
      .ok { resp := translate_status st, code := 200
          , table := table, started := [] } := by
  simp [run, hschema, hdata, hcat, hacl, hfound]

/-- Witness for C1 amended: a valid ingest replay of the persisted
request_id r1 returns the stored record untouched. -/
theorem run_idempotent_replay_witness :
    run (fun _ => true) [] { identities := ["u"], effective_identity := "u" } 0
      [{ action_id := "a1", request_id := "r1", status := "ACTIVE"
       , manage_by := ["u"], monitor_by := ["u"], creator_id := "u"
       , release_after := "P30D"
       , details := some { message := some "Action started" } }] ["a2"]
      { request_id := "r1"
      , body := { operation := "ingest", data_url := some "https://x/bag.zip" } } =
      .ok { resp := translate_status
              { action_id := "a1", request_id := "r1", status := "ACTIVE"
              , manage_by := ["u"], monitor_by := ["u"], creator_id := "u"
              , release_after := "P30D"
              , details := some { message := some "Action started" } }
          , code := 200
          , table := [{ action_id := "a1", request_id := "r1", status := "ACTIVE"
                      , manage_by := ["u"], monitor_by := ["u"], creator_id := "u"
                      , release_after := "P30D"
                      , details := some { message := some "Action started" } }]
          , started := [] } :=
  run_idempotent_replay (fun _ => true) [] _ 0 _ ["a2"] _ _
    (by rfl) (by rfl) (by rfl) (by rfl) (by rfl)

/-- C2: two submissions racing on request_id r1 (both look the id up
before either create commits) both pass the conditional create, because
its condition is keyed on the freshly generated action_id, not on
request_id; the store ends with two Actions for r1 and a later lookup
reports InternalError. The full submit of the first racer is also traced
through run. -/
theorem race_on_request_id_creates_two_records :
    read_action_by_request [([] : List ActionRecord)] "r1" =
      .error (.NotFound "Request ID 'r1' not found in status database") ∧
    create_action_status []
      (build_job { identities := ["u"], effective_identity := "u" }
        { request_id := "r1"
        , body := { operation := "ingest", data_url := some "https://x/bag.zip" } })
      ["id1"] =
      .ok ({ action_id := "id1", request_id := "r1", status := "ACTIVE"
           , manage_by := ["u"], monitor_by := ["u"], creator_id := "u"
           , release_after := "P30D"
           , details := some { message := some "Action started" } },
           [{ action_id := "id1", request_id := "r1", status := "ACTIVE"
            , manage_by := ["u"], monitor_by := ["u"], creator_id := "u"
            , release_after := "P30D"
            , details := some { message := some "Action started" } }]) ∧
    run (fun _ => true) [] { identities := ["u"], effective_identity := "u" } 0
      [] ["id1"]
      { request_id := "r1"
      , body := { operation := "ingest", data_url := some "https://x/bag.zip" } } =
      .ok { resp := { action_id := "id1", request_id := "r1", status := "ACTIVE"
                    , manage_by := ["u"], monitor_by := ["u"], creator_id := "u"
                    , release_after := "P30D"
                    , details := some { message := some "Action started" } }
          , code := 202
          , table := [{ action_id := "id1", request_id := "r1", status := "ACTIVE"
                      , manage_by := ["u"], monitor_by := ["u"], creator_id := "u"
                      , release_after := "P30D"
                      , details := some { message := some "Action started" } }]
          , started := [("id1", .ingest,
              { operation := "ingest", data_url := some "https://x/bag.zip" })] } ∧
    create_action_status
      [{ action_id := "id1", request_id := "r1", status := "ACTIVE"
       , manage_by := ["u"], monitor_by := ["u"], creator_id := "u"
       , release_after := "P30D"
       , details := some { message := some "Action started" } }]
      (build_job { identities := ["u"], effective_identity := "u" }
        { request_id := "r1"
        , body := { operation := "ingest", data_url := some "https://x/bag.zip" } })
      ["id2"] =
      .ok ({ action_id := "id2", request_id := "r1", status := "ACTIVE"
           , manage_by := ["u"], monitor_by := ["u"], creator_id := "u"
           , release_after := "P30D"
           , details := some { message := some "Action started" } },
           [{ action_id := "id1", request_id := "r1", status := "ACTIVE"
            , manage_by := ["u"], monitor_by := ["u"], creator_id := "u"
            , release_after := "P30D"
            , details := some { message := some "Action started" } },
            { action_id := "id2", request_id := "r1", status := "ACTIVE"
            , manage_by := ["u"], monitor_by := ["u"], creator_id := "u"
            , release_after := "P30D"
            , details := some { message := some "Action started" } }]) ∧
    (([{ action_id := "id1", request_id := "r1", status := "ACTIVE"
       , manage_by := ["u"], monitor_by := ["u"], creator_id := "u"
       , release_after := "P30D"
       , details := some { message := some "Action started" } },
       { action_id := "id2", request_id := "r1", status := "ACTIVE"
       , manage_by := ["u"], monitor_by := ["u"], creator_id := "u"
       , release_after := "P30D"
       , details := some { message := some "Action started" } }] :
        List ActionRecord).filter (fun r => r.request_id == "r1")).length = 2 ∧
    read_action_by_request
      [[{ action_id := "id1", request_id := "r1", status := "ACTIVE"
        , manage_by := ["u"], monitor_by := ["u"], creator_id := "u"
        , release_after := "P30D"
        , details := some { message := some "Action started" } },
        { action_id := "id2", request_id := "r1", status := "ACTIVE"
        , manage_by := ["u"], monitor_by := ["u"], creator_id := "u"
        , release_after := "P30D"
        , details := some { message := some "Action started" } }]] "r1" =
      .error (.InternalError
        "Multiple entries found for request ID 'r1'. Please report this error.") :=
  ⟨by rfl, by rfl, by rfl, by rfl, by decide, by rfl⟩

end CfdeAp
